import Mathlib

/-!
Shallow embedding of `src/src/handler/withdraw.c` (Ledger App Acre, withdraw
handler).  Bytes are modelled as `Nat` values, byte buffers as `List Nat`.
External collaborators (the authenticated chunk-retrieval primitive, the
keccak/sha syscalls, the script decoder, the key/signature collaborators and
the UI) are fields of an `Env` record: one `Env` value describes one request.
Observable actions (status words sent, responses emitted, signer invocation,
UI failure/success notifications) are collected in an event trace.
-/

namespace Withdraw

/-- Status words of the response protocol (`sw.h` names used by the handler). -/
inductive SW where
  | ok
  | wrongDataLength
  | incorrectData
  | denied
  | badState
  deriving DecidableEq, Repr

/-- Observable events of one request: a status word sent (`SEND_SW` /
`SAFE_SEND_SW`), a response with payload (`SEND_RESPONSE`), an invocation of
`crypto_ecdsa_sign_sha256_hash_with_key`, and the
`ui_post_processing_confirm_withdraw` notification with its boolean argument. -/
inductive Ev where
  | sw (s : SW)
  | response (data : List Nat) (s : SW)
  | signerInvoked
  | uiNotify (ok : Bool)
  deriving DecidableEq, Repr

/-- `COIN_VARIANT`: the two build-time network configurations. -/
inductive CoinVariant where
  | acre
  | acreTestnet
  deriving DecidableEq, Repr

/-- `abi_encoded_chain_id`: 32-byte zero-padded big-endian chain id constant,
selected by `COIN_VARIANT` (mainnet chain id 1, Sepolia chain id 11155111 =
0xaa36a7), transcribed from lines 64-72 of the source. -/
def abi_encoded_chain_id : CoinVariant → List Nat
  | CoinVariant.acre => List.replicate 31 0 ++ [0x01]
  | CoinVariant.acreTestnet => List.replicate 29 0 ++ [0xaa, 0x36, 0xa7]

/-- `domain_separator_typehash` constant (source lines 77-79). -/
def domain_separator_typehash : List Nat :=
  [0x47, 0xe7, 0x95, 0x34, 0xa2, 0x45, 0x95, 0x2e, 0x8b, 0x16, 0x89, 0x3a,
   0x33, 0x6b, 0x85, 0xa3, 0xd9, 0xea, 0x9f, 0xa8, 0xc5, 0x73, 0xf3, 0xd8,
   0x03, 0xaf, 0xb9, 0x2a, 0x79, 0x46, 0x92, 0x18]

/-- `safe_tx_typehash` constant (source lines 81-83). -/
def safe_tx_typehash : List Nat :=
  [0xbb, 0x83, 0x10, 0xd4, 0x86, 0x36, 0x8d, 0xb6, 0xbd, 0x6f, 0x84, 0x94,
   0x02, 0xfd, 0xd7, 0x3a, 0xd5, 0x3d, 0x31, 0x6b, 0x5a, 0x4b, 0x26, 0x44,
   0xad, 0x6e, 0xfe, 0x0f, 0x94, 0x12, 0x86, 0xd8]

/-- The environment of one withdrawal request: the parsed request data and the
behaviour of every external collaborator reached during the request.  Buffers
the C code leaves uninitialised are supplied by `junk` fields. -/
structure Env where
  /-- The four `buffer_read_*` calls on the request all succeed. -/
  parseOk : Bool
  /-- Parsed `bip32_path_len`. -/
  pathLen : Nat
  /-- Parsed `n_chunks` varint. -/
  nChunks : Nat
  /-- Build-time `COIN_VARIANT`. -/
  variant : CoinVariant
  /-- `call_get_merkle_leaf_element` against this request's Merkle root and
  chunk count: `none` models a negative return (retrieval failure), `some c`
  a successful retrieval filling the 64-byte chunk buffer with `c`. -/
  getLeaf : Nat → Option (List Nat)
  /-- The keccak-256 primitive (`cx_keccak_init_no_throw` +
  `cx_hash_no_throw`): finalization maps all accumulated input bytes to the
  32-byte digest. -/
  K : List Nat → List Nat
  /-- `crypto_ecdsa_sign_sha256_hash_with_key`: `none` models a negative
  `sig_len` (signing failure), `some (info, der)` success with parity info
  word `info` and DER signature bytes `der` written to the signature buffer. -/
  signResult : Option (Nat × List Nat)
  /-- Contents of the (uninitialised) `sig[MAX_DER_SIG_LEN]` stack buffer when
  the signer fails and writes nothing. -/
  sigJunk : List Nat
  /-- Contents of the uninitialised 64-byte `data_chunk` stack buffer in
  `display_data_content_and_confirm` before any successful retrieval. -/
  junk64 : List Nat
  /-- Contents of the uninitialised `abi_encoded_tx_fields[352]` stack buffer. -/
  junk352 : List Nat
  /-- Contents of the uninitialised `tx_hash[32]` buffer (only reachable
  through the dead buffer-size check of `fetch_and_abi_encode_tx_fields`). -/
  junk32 : List Nat
  /-- `get_script_type` on (script bytes, script length argument). -/
  getScriptType : List Nat → Nat → Int
  /-- `get_script_address` on (script bytes, script length argument):
  returns the address length (or -1) and the address characters written. -/
  getScriptAddress : List Nat → Nat → Int × List Nat
  /-- `crypto_get_compressed_pubkey_at_path` succeeds on this request's path. -/
  pubkeyOk : Bool
  /-- `get_address_from_compressed_public_key` for a given address type on
  the derived public key: `none` models failure. -/
  recoveredAddr : Int → Option (List Nat)
  /-- Platform bound `MAX_ADDRESS_LENGTH_STR` (from the SDK, not in src). -/
  maxAddrLen : Nat
  /-- `ui_validate_withdraw_data_and_confirm` on (amount string, address). -/
  uiConfirm : List Nat → List Nat → Bool

/-- `MAX_BIP32_PATH_STEPS` from `constants.h` (not in src; the app family
fixes it at 8; no claim depends on the value). -/
def MAX_BIP32_PATH_STEPS : Nat := 8

/-- `read_u64_be(buf, off)`: big-endian 64-bit read. -/
def read_u64_be (buf : List Nat) (off : Nat) : Nat :=
  (List.range 8).foldl (fun a i => a * 256 + buf.getD (off + i) 0) 0

/-- `read_u16_be(buf, off)`: big-endian 16-bit read. -/
def read_u16_be (buf : List Nat) (off : Nat) : Nat :=
  (List.range 2).foldl (fun a i => a * 256 + buf.getD (off + i) 0) 0

/-- `memcpy(buf + off, data, data.length)` on a byte buffer. -/
def writeSlice (buf : List Nat) (off : Nat) (data : List Nat) : List Nat :=
  buf.take off ++ data ++ buf.drop (off + data.length)

/-- `add_leading_zeroes(dest, dest_size, src, src_size)` (source lines
271-291): returns `dest` unchanged when it is too small, otherwise zero-fills
and right-aligns `src` in it.  Only the length of `dest` matters because the
function starts with `memset(dest, 0, dest_size)`. -/
def add_leading_zeroes (dest : List Nat) (src : List Nat) : List Nat :=
  if dest.length < src.length then dest
  else List.replicate (dest.length - src.length) 0 ++ src

/-- `fetch_and_add_chunk_to_hash` (source lines 307-343).  The incremental
keccak context is modelled as the list of bytes accumulated so far, threaded
together with the event trace in `acc`.  On retrieval failure the function
sends `WrongDataLength`, notifies the UI and returns without feeding the
hasher; note that it has no way to report the failure to its caller. -/
def fetch_and_add_chunk_to_hash (env : Env) (acc : List Ev × List Nat)
    (chunk_index chunk_offset chunk_data_size : Nat) : List Ev × List Nat :=
  match env.getLeaf chunk_index with
  | none => (acc.1 ++ [Ev.sw SW.wrongDataLength, Ev.uiNotify false], acc.2)
  | some data_chunk =>
      (acc.1, acc.2 ++ (data_chunk.drop chunk_offset).take chunk_data_size)

/-- `fetch_and_hash_tx_data` (source lines 420-441): hashes the first 4 bytes
of chunk 4, then both 32-byte halves of every chunk from 5 to `n_chunks - 1`,
and finalizes the keccak digest. -/
def fetch_and_hash_tx_data (env : Env) (n_chunks : Nat) : List Ev × List Nat :=
  let s0 := fetch_and_add_chunk_to_hash env ([], []) 4 0 4
  let s1 := (List.range' 5 (n_chunks - 5)).foldl
    (fun acc i =>
      fetch_and_add_chunk_to_hash env
        (fetch_and_add_chunk_to_hash env acc i 0 32) i 32 32) s0
  (s1.1, env.K s1.2)

/-- `fetch_and_add_chunk_to_buffer` (source lines 361-402): fetches a chunk,
left-zero-pads the selected byte range to 32 bytes when it is narrower, and
copies it into the output buffer at the given offset.  On retrieval failure it
sends `WrongDataLength`, notifies the UI and leaves the buffer untouched
(again without informing its caller). -/
def fetch_and_add_chunk_to_buffer (env : Env)
    (chunk_index chunk_offset chunk_data_size : Nat)
    (output_buffer : List Nat) (output_buffer_offset : Nat) :
    List Ev × List Nat :=
  match env.getLeaf chunk_index with
  | none => ([Ev.sw SW.wrongDataLength, Ev.uiNotify false], output_buffer)
  | some data_chunk =>
      let input_buffer :=
        if chunk_data_size < 32 then
          add_leading_zeroes (List.replicate 32 0)
            ((data_chunk.drop chunk_offset).take chunk_data_size)
        else (data_chunk.drop chunk_offset).take chunk_data_size
      ([], writeSlice output_buffer output_buffer_offset input_buffer)

/-- One field-fetch step of `fetch_and_abi_encode_tx_fields`, threading the
event trace and the output buffer. -/
def abiFieldStep (env : Env) (acc : List Ev × List Nat)
    (chunk_index chunk_offset chunk_data_size output_buffer_offset : Nat) :
    List Ev × List Nat :=
  let r := fetch_and_add_chunk_to_buffer env chunk_index chunk_offset
    chunk_data_size acc.2 output_buffer_offset
  (acc.1 ++ r.1, r.2)

/-- `fetch_and_abi_encode_tx_fields` (source lines 460-521): writes the
eleven 32-byte words of the Safe struct into the 352-byte output buffer.  The
buffer starts with the uninitialised stack contents `env.junk352` (normalised
to length 352, matching the fixed-size C array).  `none` models the `false`
return of the dead buffer-size check. -/
def fetch_and_abi_encode_tx_fields (env : Env)
    (keccak_of_tx_data : List Nat) (output_buffer_size : Nat) :
    List Ev × Option (List Nat) :=
  if output_buffer_size < 32 * 11 then
    ([Ev.sw SW.wrongDataLength], none)
  else
    let buf0 := (env.junk352 ++ List.replicate 352 0).take 352
    let a0 : List Ev × List Nat := ([], writeSlice buf0 0 safe_tx_typehash)
    let a1 := abiFieldStep env a0 0 0 20 32
    let a2 := abiFieldStep env a1 1 0 32 64
    let a3 := (a2.1, writeSlice a2.2 96 keccak_of_tx_data)
    let a4 := abiFieldStep env a3 3 0 1 128
    let a5 := abiFieldStep env a4 1 32 32 160
    let a6 := abiFieldStep env a5 2 1 32 192
    let a7 := abiFieldStep env a6 2 32 32 224
    let a8 := abiFieldStep env a7 0 20 20 256
    let a9 := abiFieldStep env a8 0 40 20 288
    let a10 := abiFieldStep env a9 3 0 32 320
    (a10.1, some a10.2)

/-- `compute_domain_separator_hash` (source lines 540-570): keccak over the
domain typehash constant, the network chain-id constant and the 32-byte
verifying-contract word of chunk 7. -/
def compute_domain_separator_hash (env : Env) : List Ev × List Nat :=
  let ctx := domain_separator_typehash ++ abi_encoded_chain_id env.variant
  let st := fetch_and_add_chunk_to_hash env ([], ctx) 7 0 32
  (st.1, env.K st.2)

/-- The `abi_encode_packed` buffer of `compute_tx_hash` (source line 625):
the 2-byte version prefix 0x19 0x01 followed by the two 32-byte hashes. -/
def abi_encode_packed (domain_hash struct_hash : List Nat) : List Nat :=
  [0x19, 0x01] ++ domain_hash ++ struct_hash

/-- `compute_tx_hash` (source lines 588-642): payload hash, struct hash,
domain-separator hash, then keccak of the packed prefix + hashes.  On the
(dead) early return of `fetch_and_abi_encode_tx_fields` the output buffer
stays uninitialised (`env.junk32`). -/
def compute_tx_hash (env : Env) : List Ev × List Nat :=
  let p := fetch_and_hash_tx_data env env.nChunks
  let f := fetch_and_abi_encode_tx_fields env p.2 (32 * 11)
  match f.2 with
  | none => (p.1 ++ f.1, env.junk32)
  | some abi_encoded_tx_fields =>
      let keccak_of_abi_encoded_tx_fields := env.K abi_encoded_tx_fields
      let d := compute_domain_separator_hash env
      (p.1 ++ f.1 ++ d.1,
        env.K (abi_encode_packed d.2 keccak_of_abi_encoded_tx_fields))

/-- Big-endian base-`b` digits of `n`, most significant first, with explicit
fuel so the kernel can evaluate it; `[]` for `n = 0`. -/
def natDigitsBE (b : Nat) : Nat → Nat → List Nat
  | 0, _ => []
  | _ + 1, 0 => []
  | fuel + 1, n => natDigitsBE b fuel (n / b) ++ [n % b]

/-- Modelled from the spec: `format_fpu64` (from the SDK's `format.c`, not in
src) renders the full fixed-point decimal string of a 64-bit amount with 18
fractional digits — integer part (a sole `0` digit for values below one unit),
a decimal point, then the 18-digit zero-padded fractional part.  The 51-byte
destination always suffices, so the failure branch is unreachable.  Output is
a list of ASCII codes. -/
def format_fpu64 (value : Nat) : List Nat :=
  let intDigits :=
    if value / 10 ^ 18 = 0 then [48]
    else (natDigitsBE 10 20 (value / 10 ^ 18)).map (fun d => 48 + d)
  let fracDigits := (natDigitsBE 10 18 (value % 10 ^ 18)).map (fun d => 48 + d)
  intDigits ++ [46] ++ (List.replicate (18 - fracDigits.length) 48 ++ fracDigits)

/-- The `value_with_ticker[57]` buffer after
`snprintf(value_with_ticker, sizeof(value_with_ticker), "stBTC %s", value)`
(source line 189): the 6 ASCII codes of the ticker and space, the formatted
value, then the terminator.  The bytes past the terminator are uninitialised
in the C code; they are modelled as zero, the one value the trimming scan
treats the same as its own terminator. -/
def value_with_ticker (value : List Nat) : List Nat :=
  (([115, 116, 66, 84, 67, 32] ++ value).take 56 ++ List.replicate 57 0).take 57

/-- The trimming loop of `display_data_content_and_confirm` (source lines
192-200): starting from index 56, walk down while the byte is `'0'`, `'\0'`
or `'.'`, stopping at index 0 at the latest; returns the final value of `i`. -/
def trim_scan (buf : List Nat) : Nat → Nat
  | 0 => 0
  | i + 1 =>
      if buf.getD (i + 1) 0 = 48 ∨ buf.getD (i + 1) 0 = 0 ∨ buf.getD (i + 1) 0 = 46 then
        trim_scan buf i
      else i + 1

/-- The amount string the handler displays: format, prepend the ticker, run
the trimming loop, write a terminator after the stop index (source lines
201-203), and read the buffer as a C string (bytes before the first NUL). -/
def display_string (value_u64 : Nat) : List Nat :=
  let buf := value_with_ticker (format_fpu64 value_u64)
  let i := trim_scan buf 56
  let buf2 := if i < 56 then buf.take (i + 1) ++ [0] ++ buf.drop (i + 2) else buf
  buf2.takeWhile (fun b => b ≠ 0)

/-- `len_redeemer_output_script - 1` as the C code computes it (source lines
213-229): the unsigned 16-bit big-endian length field at bytes [30,32) of
chunk 10, clamped to 32 from above, minus one in `size_t` arithmetic
(32-bit on the target), i.e. wrapping around at zero. -/
def redeemer_script_len_arg (data_chunk : List Nat) : Nat :=
  let len := read_u16_be data_chunk 30
  let len := if 32 < len then 32 else len
  (len + (2 ^ 32 - 1)) % 2 ^ 32

/-- `check_address` (source lines 100-138): length guards, public-key
derivation, address recovery for the script type, byte-for-byte comparison.
The path arguments are absorbed into the per-request `Env`. -/
def check_address (env : Env) (address_to_check : List Nat)
    (address_to_check_len : Nat) (address_type : Int) : Bool :=
  if env.maxAddrLen < address_to_check_len then false
  else if address_to_check_len < 1 then false
  else if ¬ env.pubkeyOk then false
  else
    match env.recoveredAddr address_type with
    | none => false
    | some address_recovered => address_recovered == address_to_check

/-- `display_data_content_and_confirm` (source lines 155-257).  The two
`call_get_merkle_leaf_element` results here are not checked by the C code: on
failure the 64-byte `data_chunk` buffer keeps its previous contents
(uninitialised `env.junk64` for chunk 5; chunk 5's data for chunk 10).
`format_fpu64` cannot fail on the 51-byte buffer, so its `return false`
branch is dead.  Returns the event trace and the boolean result. -/
def display_data_content_and_confirm (env : Env) : List Ev × Bool :=
  let chunk5 := (env.getLeaf 5).getD env.junk64
  let value_u64 := read_u64_be chunk5 (32 + 24)
  let value_with_ticker_trimmed := display_string value_u64
  let chunk10 := (env.getLeaf 10).getD chunk5
  let script := chunk10.drop 33
  let lenArg := redeemer_script_len_arg chunk10
  let address_type := env.getScriptType script lenArg
  let ga := env.getScriptAddress script lenArg
  if address_type = -1 ∨ ga.1 = -1 then
    ([Ev.sw SW.incorrectData, Ev.uiNotify false], false)
  else if ¬ check_address env ga.2 (ga.1.toNat % 256) address_type then
    ([Ev.sw SW.incorrectData, Ev.uiNotify false], false)
  else if ¬ env.uiConfirm value_with_ticker_trimmed ga.2 then ([], false)
  else ([], true)

/-- `format_hex` (SDK utility, not in src): lowercase hex rendering, failing
when the output buffer cannot hold `2 * len + 1` characters.  In the handler
it is called with a 65-byte buffer for a 32-byte hash, so it succeeds. -/
def format_hex (bytes : List Nat) (out_len : Nat) : Option (List Nat) :=
  if out_len < 2 * bytes.length + 1 then none
  else
    some (bytes.foldr (fun b acc =>
      (if b / 16 < 10 then 48 + b / 16 else 87 + b / 16) ::
      (if b % 16 < 10 then 48 + b % 16 else 87 + b % 16) :: acc) [])

/-- `sign_tx_hash` (source lines 658-696): computes the double-sha256 Bitcoin
signed-message digest of the hex string (the digest value is consumed only by
the external signer and is absorbed into `env.signResult`), invokes the
signer, and on a negative signature length sends `BadState`, notifies the UI
and returns `(uint32_t)(-1)`; on success returns the parity info word.  The
signature buffer is untouched on failure (`env.sigJunk`). -/
def sign_tx_hash (env : Env) : List Ev × Nat × List Nat :=
  match env.signResult with
  | none =>
      ([Ev.signerInvoked, Ev.sw SW.badState, Ev.uiNotify false],
        (2 ^ 32 - 1, env.sigJunk))
  | some (info, der) => ([Ev.signerInvoked], (info % 2 ^ 32, der))

/-- `CX_ECCINFO_PARITY_ODD` flag of the SDK (bit 0). -/
def CX_ECCINFO_PARITY_ODD : Nat := 1

/-- The signature re-encoding tail of `handler_withdraw` (source lines
797-827): read the DER component lengths, reject lengths above 33 with
`BadState`, else write `s` then `r` right-aligned into the zeroed 65-byte
result (each loop covers the contiguous range its C counterpart writes,
including the one-byte underflow position for 33-byte components), overwrite
byte 0 with `27 + 4 + parity`, and send the result with `Ok`. -/
def encode_signature_response (sig : List Nat) (info : Nat) : List Ev :=
  let r_length := sig.getD 3 0
  let s_length := sig.getD (4 + r_length + 1) 0
  if 33 < r_length ∨ 33 < s_length then
    [Ev.sw SW.badState, Ev.uiNotify false]
  else
    let result0 := List.replicate 65 0
    let result1 :=
      writeSlice result0 (1 + 32 + 32 - s_length)
        ((sig.drop (4 + r_length + 2)).take s_length)
    let result2 :=
      writeSlice result1 (1 + 32 - r_length) ((sig.drop 4).take r_length)
    let result3 :=
      writeSlice result2 0
        [27 + 4 + (if info &&& CX_ECCINFO_PARITY_ODD ≠ 0 then 1 else 0)]
    [Ev.response result3 SW.ok, Ev.uiNotify true]

/-- `handler_withdraw` (source lines 726-828), in the production
configuration (no auto-approve): parse, validate the path length, run the
display/confirmation step, compute the hash, hex-format it, sign it, and
re-encode the signature.  The return value of `sign_tx_hash` is bound to
`info` and its failure sentinel is never checked before the encoding step.
Returns the full event trace of the request. -/
def handler_withdraw (env : Env) : List Ev :=
  if ¬ env.parseOk then [Ev.sw SW.wrongDataLength, Ev.uiNotify false]
  else if MAX_BIP32_PATH_STEPS < env.pathLen then
    [Ev.sw SW.incorrectData, Ev.uiNotify false]
  else
    let d := display_data_content_and_confirm env
    if ¬ d.2 then d.1 ++ [Ev.sw SW.denied, Ev.uiNotify false]
    else
      let c := compute_tx_hash env
      match format_hex c.2 65 with
      | none => d.1 ++ c.1 ++ [Ev.sw SW.badState, Ev.uiNotify false]
      | some _tx_hash_str =>
          let s := sign_tx_hash env
          d.1 ++ c.1 ++ s.1 ++ encode_signature_response s.2.2 s.2.1

/-- Spec-side helper: left-zero-padding of a field to a 32-byte ABI word. -/
def pad32 (b : List Nat) : List Nat := List.replicate (32 - b.length) 0 ++ b

/-- Spec-side helper: a DER integer component right-aligned to 32 bytes,
dropping the leading pad byte of a 33-byte component. -/
def rightAlign32 (b : List Nat) : List Nat :=
  List.replicate (32 - b.length) 0 ++ b.drop (b.length - 32)

/-- The chain id each `COIN_VARIANT` encodes (mainnet 1, Sepolia 11155111). -/
def chain_id_value : CoinVariant → Nat
  | CoinVariant.acre => 1
  | CoinVariant.acreTestnet => 11155111

/-- An all-zero 64-byte chunk, used by the concrete test environments. -/
def zeros64 : List Nat := List.replicate 64 0

/-- A well-formed 72-byte DER signature with 32-byte `r` (all 0x01 bytes) and
32-byte `s` (all 0x02 bytes), used by the concrete test environments. -/
def derC : List Nat :=
  [48, 68, 2, 32] ++ List.replicate 32 1 ++ [2, 32] ++ List.replicate 32 2 ++ [0, 0]

/-- A fully successful concrete request environment: every chunk retrieval
returns the all-zero chunk, keccak is stubbed by a constant 32-byte digest,
the script decoder accepts, the derived address matches, the user confirms,
and the signer succeeds with `derC` and even parity. -/
def envBase : Env where
  parseOk := true
  pathLen := 0
  nChunks := 11
  variant := CoinVariant.acre
  getLeaf := fun _ => some zeros64
  K := fun _ => List.replicate 32 0
  signResult := some (0, derC)
  sigJunk := List.replicate 72 0
  junk64 := zeros64
  junk352 := List.replicate 352 0
  junk32 := List.replicate 32 0
  getScriptType := fun _ _ => 0
  getScriptAddress := fun _ _ => (5, List.replicate 5 97)
  pubkeyOk := true
  recoveredAddr := fun _ => some (List.replicate 5 97)
  maxAddrLen := 80
  uiConfirm := fun _ _ => true

/-- `envBase` with a failing signer and an all-zero uninitialised signature
buffer. -/
def envSignFail : Env := { envBase with signResult := none }

/-- `envBase` with chunk retrieval failing exactly at index 4 (the first
index the hashing pass needs). -/
def envFetchFail : Env :=
  { envBase with getLeaf := fun i => if i = 4 then none else some zeros64 }

/-- C1: the claim says that after `sign_tx_hash` reports a signing failure
(sending `BadState` and returning the -1 sentinel) the handler does not
continue to encode the signature and does not send an `Ok` response.  The
code violates this: `handler_withdraw` never checks the value returned by
`sign_tx_hash`, so on this concrete request with a failing signer (signature
buffer left all zero) the trace contains the `BadState` status word and then
a 65-byte response sent with `Ok`. -/
theorem C1_sign_failure_still_sends_ok_response :
    handler_withdraw envSignFail =
      [Ev.signerInvoked, Ev.sw SW.badState, Ev.uiNotify false,
        Ev.response (32 :: List.replicate 64 0) SW.ok, Ev.uiNotify true] ∧
    Ev.sw SW.badState ∈ handler_withdraw envSignFail ∧
    Ev.response (32 :: List.replicate 64 0) SW.ok ∈ handler_withdraw envSignFail := by
  refine ⟨by decide, by decide, by decide⟩

/-- C2: the claim says a chunk-retrieval failure at a required index makes
the request terminate with `WrongDataLength` without ever invoking the
signer.  The code violates this: `fetch_and_add_chunk_to_hash` sends
`WrongDataLength` but cannot make its caller abort, so on this concrete
request with retrieval failing at index 4 the pipeline keeps hashing the
remaining chunks, invokes the signer and sends a second, `Ok`, response. -/
theorem C2_fetch_failure_does_not_stop_signing :
    handler_withdraw envFetchFail =
      [Ev.sw SW.wrongDataLength, Ev.uiNotify false, Ev.signerInvoked,
        Ev.response (31 :: (List.replicate 32 1 ++ List.replicate 32 2)) SW.ok,
        Ev.uiNotify true] ∧
    Ev.sw SW.wrongDataLength ∈ handler_withdraw envFetchFail ∧
    Ev.signerInvoked ∈ handler_withdraw envFetchFail := by
  refine ⟨by decide, by decide, by decide⟩

/-- C3: the claim says the trimmed amount string never ends in a decimal
point and that for a zero amount the final `0` digit is never stripped.  The
code violates the second part: for amount 0 the rendered string
`stBTC 0.000000000000000000` is trimmed all the way through the sole integer
`0` digit, leaving only the ticker and space — no digit at all remains. -/
theorem C3_zero_amount_sole_zero_stripped :
    display_string 0 = [115, 116, 66, 84, 67, 32] ∧ ¬ 48 ∈ display_string 0 := by
  refine ⟨by decide, by decide⟩

/-- C9: for the raw amount 10000000000000000000 (10 with 18 decimals) the
trimming loop also strips the trailing `0` of the integer part `10`, so the
confirmation string is `stBTC 1` rather than `stBTC 10`: the user is shown a
different number than the amount. -/
theorem C9_trim_strips_integer_part_zeros :
    display_string 10000000000000000000 = [115, 116, 66, 84, 67, 32, 49] ∧
    display_string 10000000000000000000 ≠ [115, 116, 66, 84, 67, 32, 49, 48] := by
  refine ⟨by decide, by decide⟩

/-- C10: when the unsigned 16-bit big-endian redeemer-script length field at
bytes [30,32) of chunk 10 is 0, the length the code passes to
`get_script_type` and `get_script_address` is `0 - 1` computed in `size_t`:
it underflows to `SIZE_MAX` = 2^32 - 1 instead of being rejected or clamped
to 0. -/
theorem C10_zero_script_length_underflows (data_chunk : List Nat)
    (h : read_u16_be data_chunk 30 = 0) :
    redeemer_script_len_arg data_chunk = 2 ^ 32 - 1 ∧
    redeemer_script_len_arg data_chunk ≠ 0 := by
  simp only [redeemer_script_len_arg, h]
  norm_num

/-- C10 witness: the all-zero chunk has length field 0 and the argument
computed from it is `SIZE_MAX`. -/
theorem C10_zero_script_length_underflows_witness :
    redeemer_script_len_arg zeros64 = 2 ^ 32 - 1 ∧
    redeemer_script_len_arg zeros64 ≠ 0 :=
  C10_zero_script_length_underflows zeros64 (by decide)

/-- Helper: when every retrieval succeeds, the per-chunk double-feed loop of
`fetch_and_hash_tx_data` appends, for each index in the list, the low then
the high 32-byte half of that chunk, and emits no events. -/
lemma hash_loop_flatten (env : Env) (leaf : Nat → List Nat)
    (h : ∀ i, env.getLeaf i = some (leaf i)) (l : List Nat)
    (acc : List Ev × List Nat) :
    l.foldl (fun acc i =>
        fetch_and_add_chunk_to_hash env
          (fetch_and_add_chunk_to_hash env acc i 0 32) i 32 32) acc =
      (acc.1, acc.2 ++
        (l.map fun i => (leaf i).take 32 ++ ((leaf i).drop 32).take 32).flatten) := by
  induction l generalizing acc with
  | nil => simp
  | cons x xs ih =>
      simp only [List.foldl_cons, List.map_cons, List.flatten_cons]
      rw [ih]
      simp [fetch_and_add_chunk_to_hash, h]

/-- C5: when every required retrieval succeeds, the payload ("data") hash is
the keccak digest of the first 4 bytes of chunk 4 followed, for every chunk
index from 5 up to `n_chunks - 1` in increasing order, by bytes [0,32) and
then bytes [32,64) of that chunk. -/
theorem C5_payload_hash (env : Env) (n_chunks : Nat) (leaf : Nat → List Nat)
    (h : ∀ i, env.getLeaf i = some (leaf i)) :
    fetch_and_hash_tx_data env n_chunks =
      ([], env.K ((leaf 4).take 4 ++
        ((List.range' 5 (n_chunks - 5)).map fun i =>
          (leaf i).take 32 ++ ((leaf i).drop 32).take 32).flatten)) := by
  simp only [fetch_and_hash_tx_data]
  rw [hash_loop_flatten env leaf h]
  simp [fetch_and_add_chunk_to_hash, h]

/-- C5 witness: a concrete all-success request with 7 chunks. -/
theorem C5_payload_hash_witness :
    fetch_and_hash_tx_data envBase 7 =
      ([], envBase.K (zeros64.take 4 ++
        ((List.range' 5 2).map fun _ =>
          zeros64.take 32 ++ (zeros64.drop 32).take 32).flatten)) :=
  C5_payload_hash envBase 7 (fun _ => zeros64) (fun _ => rfl)

/-- C7: when the retrieval of chunk 7 succeeds, the domain-separator hash is
the keccak digest of the fixed domain type-hash constant, then the 32-byte
zero-padded big-endian chain-id constant of the configured network, then the
32-byte verifying-contract word at bytes [0,32) of chunk 7; and the chain-id
constant of each network is exactly the 32-byte left-zero-padded big-endian
encoding of its chain id. -/
theorem C7_domain_separator_hash (env : Env) (c7 : List Nat)
    (h : env.getLeaf 7 = some c7) :
    compute_domain_separator_hash env =
      ([], env.K (domain_separator_typehash ++
        abi_encoded_chain_id env.variant ++ c7.take 32)) ∧
    abi_encoded_chain_id env.variant =
      pad32 (natDigitsBE 256 32 (chain_id_value env.variant)) := by
  constructor
  · simp [compute_domain_separator_hash, fetch_and_add_chunk_to_hash, h,
      List.append_assoc]
  · cases env.variant <;> decide

/-- C7 witness: the concrete all-success mainnet request. -/
theorem C7_domain_separator_hash_witness :
    compute_domain_separator_hash envBase =
      ([], envBase.K (domain_separator_typehash ++
        abi_encoded_chain_id envBase.variant ++ zeros64.take 32)) ∧
    abi_encoded_chain_id envBase.variant =
      pad32 (natDigitsBE 256 32 (chain_id_value envBase.variant)) :=
  C7_domain_separator_hash envBase zeros64 rfl

/-- C4 counterexample: the claim states the final hash is the keccak digest
of EXACTLY 34 bytes consisting of the 2-byte prefix, the 32-byte
domain-separator hash and the 32-byte struct hash — but that concatenation
has 2 + 32 + 32 = 66 bytes.  On the concrete all-success request the signed
hash is the keccak digest of the packed buffer built from the two 32-byte
digests, and that buffer has length 66, not 34. -/
theorem C4_counterexample_thirtyfour_bytes :
    (compute_tx_hash envBase).2 =
      envBase.K (abi_encode_packed (List.replicate 32 0) (List.replicate 32 0)) ∧
    (abi_encode_packed (List.replicate 32 0) (List.replicate 32 0)).length = 66 ∧
    ¬ (abi_encode_packed (List.replicate 32 0) (List.replicate 32 0)).length = 34 := by
  refine ⟨by decide, by decide, by decide⟩

/-- C4 amended: assuming the keccak primitive returns 32-byte digests, the
final hash signed by the handler is keccak256 of exactly 66 bytes: the
2-byte prefix 0x19 0x01, then the 32-byte domain-separator hash, then the
32-byte struct hash (keccak256 of the ABI-encoded TxFields buffer), in that
order; and the final hash itself is 32 bytes. -/
theorem C4_final_combination_66_bytes (env : Env)
    (hK : ∀ x, (env.K x).length = 32) :
    (compute_tx_hash env).2 =
      env.K (abi_encode_packed (compute_domain_separator_hash env).2
        (env.K ((fetch_and_abi_encode_tx_fields env
          (fetch_and_hash_tx_data env env.nChunks).2 (32 * 11)).2.getD []))) ∧
    (abi_encode_packed (compute_domain_separator_hash env).2
        (env.K ((fetch_and_abi_encode_tx_fields env
          (fetch_and_hash_tx_data env env.nChunks).2 (32 * 11)).2.getD []))).length
      = 66 ∧
    ((compute_tx_hash env).2).length = 32 := by
  have h1 : (compute_tx_hash env).2 =
      env.K (abi_encode_packed (compute_domain_separator_hash env).2
        (env.K ((fetch_and_abi_encode_tx_fields env
          (fetch_and_hash_tx_data env env.nChunks).2 (32 * 11)).2.getD []))) := rfl
  refine ⟨h1, ?_, ?_⟩
  · simp [abi_encode_packed, compute_domain_separator_hash, hK]
  · rw [h1]; exact hK _

/-- C4 witness for the amended theorem: the concrete all-success request,
whose stubbed keccak always returns a 32-byte digest. -/
theorem C4_final_combination_66_bytes_witness :
    (compute_tx_hash envBase).2 =
      envBase.K (abi_encode_packed (compute_domain_separator_hash envBase).2
        (envBase.K ((fetch_and_abi_encode_tx_fields envBase
          (fetch_and_hash_tx_data envBase envBase.nChunks).2 (32 * 11)).2.getD []))) ∧
    (abi_encode_packed (compute_domain_separator_hash envBase).2
        (envBase.K ((fetch_and_abi_encode_tx_fields envBase
          (fetch_and_hash_tx_data envBase envBase.nChunks).2 (32 * 11)).2.getD []))).length
      = 66 ∧
    ((compute_tx_hash envBase).2).length = 32 :=
  C4_final_combination_66_bytes envBase (fun _ => rfl)

/-- Helper: writing a 32-byte block at the end of an assembled prefix. -/
lemma writeSlice_glue (B F tail pre : List Nat) (k : Nat)
    (hB : B = pre ++ tail) (hk : pre.length = k) (hF : F.length = 32) :
    writeSlice B k F = pre ++ (F ++ tail.drop 32) := by
  subst hB
  subst hk
  unfold writeSlice
  rw [List.take_left, List.drop_append, hF]
  simp

lemma pad32_length (src : List Nat) (hs : src.length ≤ 32) :
    (pad32 src).length = 32 := by
  simp [pad32]
  omega

lemma add_leading_zeroes_pad32 (src : List Nat) (hs : src.length ≤ 32) :
    add_leading_zeroes (List.replicate 32 0) src = pad32 src := by
  unfold add_leading_zeroes pad32
  rw [List.length_replicate, if_neg (by omega)]



lemma abiFieldStep_pad (env : Env) (leaf : Nat → List Nat)
    (h : ∀ i, env.getLeaf i = some (leaf i))
    (E : List Ev) (B pre tail : List Nat) (idx off size k : Nat)
    (hsize : size < 32) (hB : B = pre ++ tail) (hk : pre.length = k) :
    abiFieldStep env (E, B) idx off size k =
      (E, pre ++ (pad32 (((leaf idx).drop off).take size) ++ tail.drop 32)) := by
  have hs : (((leaf idx).drop off).take size).length ≤ 32 :=
    le_of_lt (lt_of_le_of_lt (List.length_take_le _ _) hsize)
  simp only [abiFieldStep, fetch_and_add_chunk_to_buffer, h idx]
  rw [if_pos hsize, add_leading_zeroes_pad32 _ hs,
    writeSlice_glue B (pad32 (((leaf idx).drop off).take size)) tail pre k hB hk
      (pad32_length _ hs)]
  simp

lemma abiFieldStep_fullword (env : Env) (leaf : Nat → List Nat)
    (h : ∀ i, env.getLeaf i = some (leaf i))
    (E : List Ev) (B pre tail : List Nat) (idx off k : Nat)
    (hlen64 : (leaf idx).length = 64) (hoff : off + 32 ≤ 64)
    (hB : B = pre ++ tail) (hk : pre.length = k) :
    abiFieldStep env (E, B) idx off 32 k =
      (E, pre ++ (((leaf idx).drop off).take 32 ++ tail.drop 32)) := by
  have hF : (((leaf idx).drop off).take 32).length = 32 := by
    simp [List.length_take, List.length_drop, hlen64]
    omega
  simp only [abiFieldStep, fetch_and_add_chunk_to_buffer, h idx]
  rw [if_neg (by omega),
    writeSlice_glue B (((leaf idx).drop off).take 32) tail pre k hB hk hF]
  simp



set_option maxRecDepth 4000 in
lemma abi_fields_success (env : Env) (leaf : Nat → List Nat) (dh : List Nat)
    (h : ∀ i, env.getLeaf i = some (leaf i))
    (hlen : ∀ i, (leaf i).length = 64) (hdh : dh.length = 32) :
    fetch_and_abi_encode_tx_fields env dh (32 * 11) =
      ([], some (safe_tx_typehash ++ pad32 ((leaf 0).take 20) ++ (leaf 1).take 32 ++
        dh ++ pad32 ((leaf 3).take 1) ++ ((leaf 1).drop 32).take 32 ++
        ((leaf 2).drop 1).take 32 ++ ((leaf 2).drop 32).take 32 ++
        pad32 (((leaf 0).drop 20).take 20) ++ pad32 (((leaf 0).drop 40).take 20) ++
        (leaf 3).take 32)) := by
  have hF0 : safe_tx_typehash.length = 32 := by decide
  have hF1 : (pad32 (((leaf 0).drop 0).take 20)).length = 32 :=
    pad32_length _ (le_trans (List.length_take_le _ _) (by norm_num))
  have hF2 : (((leaf 1).drop 0).take 32).length = 32 := by
    simp [List.length_take, List.length_drop, hlen 1]
  have hF4 : (pad32 (((leaf 3).drop 0).take 1)).length = 32 :=
    pad32_length _ (le_trans (List.length_take_le _ _) (by norm_num))
  have hF5 : (((leaf 1).drop 32).take 32).length = 32 := by
    simp [List.length_take, List.length_drop, hlen 1]
  have hF6 : (((leaf 2).drop 1).take 32).length = 32 := by
    simp [List.length_take, List.length_drop, hlen 2]
  have hF7 : (((leaf 2).drop 32).take 32).length = 32 := by
    simp [List.length_take, List.length_drop, hlen 2]
  have hF8 : (pad32 (((leaf 0).drop 20).take 20)).length = 32 :=
    pad32_length _ (le_trans (List.length_take_le _ _) (by norm_num))
  have hF9 : (pad32 (((leaf 0).drop 40).take 20)).length = 32 :=
    pad32_length _ (le_trans (List.length_take_le _ _) (by norm_num))
  simp only [fetch_and_abi_encode_tx_fields]
  rw [if_neg (by norm_num)]
  have s0 : writeSlice ((env.junk352 ++ List.replicate 352 0).take 352) 0 safe_tx_typehash
      = [] ++ (safe_tx_typehash ++ ((env.junk352 ++ List.replicate 352 0).take 352).drop 32) :=
    writeSlice_glue ((env.junk352 ++ List.replicate 352 0).take 352) safe_tx_typehash
      ((env.junk352 ++ List.replicate 352 0).take 352) [] 0
      (List.nil_append ((env.junk352 ++ List.replicate 352 0).take 352)).symm rfl hF0
  rw [s0]
  simp only [List.nil_append]
  set T1 := ((env.junk352 ++ List.replicate 352 0).take 352).drop 32 with hT1
  have s1 : abiFieldStep env ([], safe_tx_typehash ++ T1) 0 0 20 32
      = ([], safe_tx_typehash ++ (pad32 (((leaf 0).drop 0).take 20) ++ T1.drop 32)) :=
    abiFieldStep_pad env leaf h [] _ safe_tx_typehash T1 0 0 20 32 (by norm_num) rfl hF0
  rw [s1]
  set F1 := pad32 (((leaf 0).drop 0).take 20) with hF1def
  set T2 := T1.drop 32 with hT2
  have s2 : abiFieldStep env ([], safe_tx_typehash ++ (F1 ++ T2)) 1 0 32 64
      = ([], (safe_tx_typehash ++ F1) ++ (((leaf 1).drop 0).take 32 ++ T2.drop 32)) :=
    abiFieldStep_fullword env leaf h [] (safe_tx_typehash ++ (F1 ++ T2)) (safe_tx_typehash ++ F1) T2
      1 0 64 (hlen 1) (by norm_num) (by simp) (by simp [hF0, hF1])
  rw [s2]
  simp only []
  set F2 := ((leaf 1).drop 0).take 32 with hF2def
  set T3 := T2.drop 32 with hT3
  have s3 : writeSlice ((safe_tx_typehash ++ F1) ++ (F2 ++ T3)) 96 dh
      = ((safe_tx_typehash ++ F1) ++ F2) ++ (dh ++ T3.drop 32) :=
    writeSlice_glue ((safe_tx_typehash ++ F1) ++ (F2 ++ T3)) dh T3 ((safe_tx_typehash ++ F1) ++ F2)
      96 (by simp) (by simp [hF0, hF1, hF2]) hdh
  rw [s3]
  set P3 := (safe_tx_typehash ++ F1) ++ F2 with hP3
  set T4 := T3.drop 32 with hT4
  have s4 : abiFieldStep env ([], P3 ++ (dh ++ T4)) 3 0 1 128
      = ([], (P3 ++ dh) ++ (pad32 (((leaf 3).drop 0).take 1) ++ T4.drop 32)) :=
    abiFieldStep_pad env leaf h [] (P3 ++ (dh ++ T4)) (P3 ++ dh) T4 3 0 1 128
      (by norm_num) (by simp) (by simp [hP3, hF0, hF1, hF2, hdh])
  rw [s4]
  set F4 := pad32 (((leaf 3).drop 0).take 1) with hF4def
  set T5 := T4.drop 32 with hT5
  have s5 : abiFieldStep env ([], (P3 ++ dh) ++ (F4 ++ T5)) 1 32 32 160
      = ([], ((P3 ++ dh) ++ F4) ++ (((leaf 1).drop 32).take 32 ++ T5.drop 32)) :=
    abiFieldStep_fullword env leaf h [] ((P3 ++ dh) ++ (F4 ++ T5)) ((P3 ++ dh) ++ F4) T5
      1 32 160 (hlen 1) (by norm_num) (by simp) (by simp [hP3, hF0, hF1, hF2, hdh, hF4])
  rw [s5]
  set F5 := ((leaf 1).drop 32).take 32 with hF5def
  set T6 := T5.drop 32 with hT6
  have s6 : abiFieldStep env ([], ((P3 ++ dh) ++ F4) ++ (F5 ++ T6)) 2 1 32 192
      = ([], (((P3 ++ dh) ++ F4) ++ F5) ++ (((leaf 2).drop 1).take 32 ++ T6.drop 32)) :=
    abiFieldStep_fullword env leaf h [] (((P3 ++ dh) ++ F4) ++ (F5 ++ T6)) (((P3 ++ dh) ++ F4) ++ F5) T6
      2 1 192 (hlen 2) (by norm_num) (by simp) (by simp [hP3, hF0, hF1, hF2, hdh, hF4, hF5])
  rw [s6]
  set F6 := ((leaf 2).drop 1).take 32 with hF6def
  set T7 := T6.drop 32 with hT7
  have s7 : abiFieldStep env ([], (((P3 ++ dh) ++ F4) ++ F5) ++ (F6 ++ T7)) 2 32 32 224
      = ([], ((((P3 ++ dh) ++ F4) ++ F5) ++ F6) ++ (((leaf 2).drop 32).take 32 ++ T7.drop 32)) :=
    abiFieldStep_fullword env leaf h [] ((((P3 ++ dh) ++ F4) ++ F5) ++ (F6 ++ T7))
      ((((P3 ++ dh) ++ F4) ++ F5) ++ F6) T7
      2 32 224 (hlen 2) (by norm_num) (by simp) (by simp [hP3, hF0, hF1, hF2, hdh, hF4, hF5, hF6])
  rw [s7]
  set F7 := ((leaf 2).drop 32).take 32 with hF7def
  set T8 := T7.drop 32 with hT8
  have s8 : abiFieldStep env ([], ((((P3 ++ dh) ++ F4) ++ F5) ++ F6) ++ (F7 ++ T8)) 0 20 20 256
      = ([], (((((P3 ++ dh) ++ F4) ++ F5) ++ F6) ++ F7) ++
          (pad32 (((leaf 0).drop 20).take 20) ++ T8.drop 32)) :=
    abiFieldStep_pad env leaf h [] (((((P3 ++ dh) ++ F4) ++ F5) ++ F6) ++ (F7 ++ T8))
      (((((P3 ++ dh) ++ F4) ++ F5) ++ F6) ++ F7) T8 0 20 20 256
      (by norm_num) (by simp) (by simp [hP3, hF0, hF1, hF2, hdh, hF4, hF5, hF6, hF7])
  rw [s8]
  set F8 := pad32 (((leaf 0).drop 20).take 20) with hF8def
  set T9 := T8.drop 32 with hT9
  have s9 : abiFieldStep env ([], (((((P3 ++ dh) ++ F4) ++ F5) ++ F6) ++ F7) ++ (F8 ++ T9)) 0 40 20 288
      = ([], ((((((P3 ++ dh) ++ F4) ++ F5) ++ F6) ++ F7) ++ F8) ++
          (pad32 (((leaf 0).drop 40).take 20) ++ T9.drop 32)) :=
    abiFieldStep_pad env leaf h [] ((((((P3 ++ dh) ++ F4) ++ F5) ++ F6) ++ F7) ++ (F8 ++ T9))
      ((((((P3 ++ dh) ++ F4) ++ F5) ++ F6) ++ F7) ++ F8) T9 0 40 20 288
      (by norm_num) (by simp) (by simp [hP3, hF0, hF1, hF2, hdh, hF4, hF5, hF6, hF7, hF8])
  rw [s9]
  set F9 := pad32 (((leaf 0).drop 40).take 20) with hF9def
  set T10 := T9.drop 32 with hT10
  have s10 : abiFieldStep env ([], ((((((P3 ++ dh) ++ F4) ++ F5) ++ F6) ++ F7) ++ F8) ++ (F9 ++ T10)) 3 0 32 320
      = ([], (((((((P3 ++ dh) ++ F4) ++ F5) ++ F6) ++ F7) ++ F8) ++ F9) ++
          (((leaf 3).drop 0).take 32 ++ T10.drop 32)) :=
    abiFieldStep_fullword env leaf h [] (((((((P3 ++ dh) ++ F4) ++ F5) ++ F6) ++ F7) ++ F8) ++ (F9 ++ T10))
      (((((((P3 ++ dh) ++ F4) ++ F5) ++ F6) ++ F7) ++ F8) ++ F9) T10
      3 0 320 (hlen 3) (by norm_num) (by simp)
      (by simp [hP3, hF0, hF1, hF2, hdh, hF4, hF5, hF6, hF7, hF8, hF9])
  rw [s10]
  have hTend : T10.drop 32 = [] := by
    simp only [hT10, hT9, hT8, hT7, hT6, hT5, hT4, hT3, hT2, hT1, List.drop_drop]
    simp [List.drop_take]
  rw [hTend]
  simp [hP3, hF1def, hF2def, hF4def, hF5def, hF6def, hF7def, hF8def, hF9def, List.append_assoc]


/-- C6: when every retrieval succeeds (64-byte chunks) and the payload hash
is 32 bytes, the ABI-encoded TxFields buffer is exactly the 352-byte
(11 x 32) concatenation, in order, of: the struct type-hash constant, `to`
(chunk 0 bytes [0,20) left-zero-padded), `value` (chunk 1 [0,32)), the
payload data-hash, `operation` (chunk 3 [0,1) padded), `safeTxGas` (chunk 1
[32,64)), `baseGas` (chunk 2 [1,33)), `gasPrice` (chunk 2 [32,64)),
`gasToken` (chunk 0 [20,40) padded), `refundReceiver` (chunk 0 [40,60)
padded), `nonce` (chunk 3 [0,32)); the two 32-byte hash values are copied
verbatim; the struct hash in `compute_tx_hash` is the keccak digest of this
buffer. -/
theorem C6_struct_hash_buffer (env : Env) (leaf : Nat → List Nat) (dh : List Nat)
    (h : ∀ i, env.getLeaf i = some (leaf i)) (hlen : ∀ i, (leaf i).length = 64)
    (hdh : dh.length = 32) :
    fetch_and_abi_encode_tx_fields env dh (32 * 11) =
      ([], some (safe_tx_typehash ++ pad32 ((leaf 0).take 20) ++ (leaf 1).take 32 ++
        dh ++ pad32 ((leaf 3).take 1) ++ ((leaf 1).drop 32).take 32 ++
        ((leaf 2).drop 1).take 32 ++ ((leaf 2).drop 32).take 32 ++
        pad32 (((leaf 0).drop 20).take 20) ++ pad32 (((leaf 0).drop 40).take 20) ++
        (leaf 3).take 32)) ∧
    (safe_tx_typehash ++ pad32 ((leaf 0).take 20) ++ (leaf 1).take 32 ++
        dh ++ pad32 ((leaf 3).take 1) ++ ((leaf 1).drop 32).take 32 ++
        ((leaf 2).drop 1).take 32 ++ ((leaf 2).drop 32).take 32 ++
        pad32 (((leaf 0).drop 20).take 20) ++ pad32 (((leaf 0).drop 40).take 20) ++
        (leaf 3).take 32).length = 352 := by
  refine ⟨abi_fields_success env leaf dh h hlen hdh, ?_⟩
  have hF0 : safe_tx_typehash.length = 32 := by decide
  simp [pad32, List.length_take, List.length_drop, hlen, hdh, hF0]

/-- C6 witness: the concrete all-success request with all-zero chunks and an
all-zero 32-byte payload hash. -/
theorem C6_struct_hash_buffer_witness :
    fetch_and_abi_encode_tx_fields envBase (List.replicate 32 0) (32 * 11) =
      ([], some (safe_tx_typehash ++ pad32 (zeros64.take 20) ++ zeros64.take 32 ++
        List.replicate 32 0 ++ pad32 (zeros64.take 1) ++ (zeros64.drop 32).take 32 ++
        (zeros64.drop 1).take 32 ++ (zeros64.drop 32).take 32 ++
        pad32 ((zeros64.drop 20).take 20) ++ pad32 ((zeros64.drop 40).take 20) ++
        zeros64.take 32)) ∧
    (safe_tx_typehash ++ pad32 (zeros64.take 20) ++ zeros64.take 32 ++
        List.replicate 32 0 ++ pad32 (zeros64.take 1) ++ (zeros64.drop 32).take 32 ++
        (zeros64.drop 1).take 32 ++ (zeros64.drop 32).take 32 ++
        pad32 ((zeros64.drop 20).take 20) ++ pad32 ((zeros64.drop 40).take 20) ++
        zeros64.take 32).length = 352 :=
  C6_struct_hash_buffer envBase (fun _ => zeros64) (List.replicate 32 0)
    (fun _ => rfl) (fun _ => rfl) rfl

/-- Helper: the 65-byte result assembly of the signature re-encoding: write
`s`, then `r`, then byte 0, as the C loops do. -/
lemma encode_core (rB sB : List Nat) (v : Nat)
    (hr1 : 1 ≤ rB.length) (hr2 : rB.length ≤ 33)
    (hs1 : 1 ≤ sB.length) (hs2 : sB.length ≤ 33) :
    writeSlice (writeSlice (writeSlice (List.replicate 65 0)
        (1 + 32 + 32 - sB.length) sB) (1 + 32 - rB.length) rB) 0 [v]
      = v :: (rightAlign32 rB ++ rightAlign32 sB) := by
  have e1 : writeSlice (List.replicate 65 0) (1 + 32 + 32 - sB.length) sB
      = List.replicate (65 - sB.length) 0 ++ sB := by
    unfold writeSlice
    have hs65 : 1 + 32 + 32 - sB.length + sB.length = 65 := by omega
    rw [hs65, List.take_replicate, List.drop_replicate]
    have h1 : min (1 + 32 + 32 - sB.length) 65 = 65 - sB.length := by omega
    have h2 : 65 - 65 = 0 := rfl
    rw [h1, h2]
    simp
  have e2 : writeSlice (List.replicate (65 - sB.length) 0 ++ sB) (1 + 32 - rB.length) rB
      = List.replicate (33 - rB.length) 0 ++ (rB ++
          (List.replicate (32 - sB.length) 0 ++ sB.drop (sB.length - 32))) := by
    unfold writeSlice
    have hr33 : 1 + 32 - rB.length + rB.length = 33 := by omega
    rw [hr33, List.take_append_eq_append_take, List.drop_append_eq_append_drop,
      List.take_replicate, List.drop_replicate, List.length_replicate]
    have h1 : min (1 + 32 - rB.length) (65 - sB.length) = 33 - rB.length := by omega
    have h2 : 1 + 32 - rB.length - (65 - sB.length) = 0 := by omega
    have h3 : 65 - sB.length - 33 = 32 - sB.length := by omega
    have h4 : 33 - (65 - sB.length) = sB.length - 32 := by omega
    rw [h1, h2, h3, h4]
    simp [List.append_assoc]
  have e3 : writeSlice (List.replicate (33 - rB.length) 0 ++ (rB ++
        (List.replicate (32 - sB.length) 0 ++ sB.drop (sB.length - 32)))) 0 [v]
      = v :: (rightAlign32 rB ++ rightAlign32 sB) := by
    unfold writeSlice
    rw [List.take_zero]
    have h0 : (0 : Nat) + [v].length = 1 := by simp
    rw [h0, List.drop_append_eq_append_drop, List.drop_replicate, List.length_replicate]
    have h1 : 33 - rB.length - 1 = 32 - rB.length := by omega
    have h2 : 1 - (33 - rB.length) = rB.length - 32 := by omega
    rw [h1, h2, List.drop_append_eq_append_drop]
    have h3 : rB.length - 32 - rB.length = 0 := by omega
    rw [h3, List.drop_zero]
    simp [rightAlign32, List.append_assoc]
  rw [e1, e2, e3]

/-- Helper: the DER `r` length byte the code reads at `sig[3]`. -/
lemma sig_getD_r (t : Nat) (rB sB pad : List Nat) :
    ([48, t, 2, rB.length] ++ rB ++ [2, sB.length] ++ sB ++ pad).getD 3 0
      = rB.length := by
  simp [List.getD_append]

/-- Helper: the DER `s` length byte the code reads at `sig[4 + r_length + 1]`. -/
lemma sig_getD_s (t : Nat) (rB sB pad : List Nat) :
    ([48, t, 2, rB.length] ++ rB ++ [2, sB.length] ++ sB ++ pad).getD
      (4 + rB.length + 1) 0 = sB.length := by
  have e1 : ([48, t, 2, rB.length] ++ rB ++ [2, sB.length] ++ sB ++ pad)
      = ([48, t, 2, rB.length] ++ rB) ++ ([2, sB.length] ++ (sB ++ pad)) := by simp
  rw [e1, List.getD_append_right _ _ _ _ (by simp; omega)]
  have e2 : (4 + rB.length + 1) - ([48, t, 2, rB.length] ++ rB).length = 1 := by
    simp; omega
  rw [e2]
  simp [List.getD_append]

/-- C8: on the success path, for a well-formed DER signature whose components
have between 1 and 33 bytes, the response is a single 65-byte payload sent
with `Ok`: byte 0 is `27 + 4 + (1 if the parity bit of the info word is odd
else 0)`, bytes 1..33 are `r` right-aligned to 32 bytes (a 33-byte
component's leading pad byte is dropped), bytes 33..65 are `s` likewise; and
whenever either DER component length exceeds 33 the handler sends `BadState`
and no response. -/
theorem C8_signature_encoding (rB sB pad : List Nat) (t info : Nat)
    (hr1 : 1 ≤ rB.length) (hr2 : rB.length ≤ 33)
    (hs1 : 1 ≤ sB.length) (hs2 : sB.length ≤ 33) :
    encode_signature_response
        ([48, t, 2, rB.length] ++ rB ++ [2, sB.length] ++ sB ++ pad) info =
      [Ev.response ((27 + 4 + (if info &&& CX_ECCINFO_PARITY_ODD ≠ 0 then 1 else 0)) ::
        (rightAlign32 rB ++ rightAlign32 sB)) SW.ok, Ev.uiNotify true] ∧
    ((27 + 4 + (if info &&& CX_ECCINFO_PARITY_ODD ≠ 0 then 1 else 0)) ::
        (rightAlign32 rB ++ rightAlign32 sB)).length = 65 ∧
    (∀ rB2 sB2 pad2 : List Nat, ∀ t2 info2 : Nat,
      33 < rB2.length ∨ 33 < sB2.length →
      encode_signature_response
          ([48, t2, 2, rB2.length] ++ rB2 ++ [2, sB2.length] ++ sB2 ++ pad2) info2 =
        [Ev.sw SW.badState, Ev.uiNotify false]) := by
  have hdr : (([48, t, 2, rB.length] ++ rB ++ [2, sB.length] ++ sB ++ pad).drop 4).take
      rB.length = rB := by
    have e : [48, t, 2, rB.length] ++ rB ++ [2, sB.length] ++ sB ++ pad
        = [48, t, 2, rB.length] ++ (rB ++ ([2, sB.length] ++ (sB ++ pad))) := by simp
    rw [e, List.drop_left' (show ([48, t, 2, rB.length] : List Nat).length = 4 by simp),
      List.take_left]
  have hds : (([48, t, 2, rB.length] ++ rB ++ [2, sB.length] ++ sB ++ pad).drop
      (4 + rB.length + 2)).take sB.length = sB := by
    have e : [48, t, 2, rB.length] ++ rB ++ [2, sB.length] ++ sB ++ pad
        = ([48, t, 2, rB.length] ++ rB ++ [2, sB.length]) ++ (sB ++ pad) := by simp
    rw [e, List.drop_left'
      (by simp only [List.length_append, List.length_cons, List.length_nil]),
      List.take_left]
  refine ⟨?_, ?_, ?_⟩
  · simp only [encode_signature_response]
    rw [sig_getD_r, sig_getD_s, if_neg (by omega), hds, hdr,
      encode_core rB sB _ hr1 hr2 hs1 hs2]
  · simp [rightAlign32]
    omega
  · intro rB2 sB2 pad2 t2 info2 hgt
    simp only [encode_signature_response]
    rw [sig_getD_r, sig_getD_s, if_pos hgt]

/-- C8 witness: a concrete DER signature with 32-byte components. -/
theorem C8_signature_encoding_witness :
    encode_signature_response
        ([48, 68, 2, (List.replicate 32 1).length] ++ List.replicate 32 1 ++
          [2, (List.replicate 32 2).length] ++ List.replicate 32 2 ++ [0, 0]) 0 =
      [Ev.response ((27 + 4 + (if 0 &&& CX_ECCINFO_PARITY_ODD ≠ 0 then 1 else 0)) ::
        (rightAlign32 (List.replicate 32 1) ++ rightAlign32 (List.replicate 32 2)))
        SW.ok, Ev.uiNotify true] ∧
    ((27 + 4 + (if 0 &&& CX_ECCINFO_PARITY_ODD ≠ 0 then 1 else 0)) ::
        (rightAlign32 (List.replicate 32 1) ++ rightAlign32 (List.replicate 32 2))).length
      = 65 ∧
    (∀ rB2 sB2 pad2 : List Nat, ∀ t2 info2 : Nat,
      33 < rB2.length ∨ 33 < sB2.length →
      encode_signature_response
          ([48, t2, 2, rB2.length] ++ rB2 ++ [2, sB2.length] ++ sB2 ++ pad2) info2 =
        [Ev.sw SW.badState, Ev.uiNotify false]) :=
  C8_signature_encoding (List.replicate 32 1) (List.replicate 32 2) [0, 0] 68 0
    (by decide) (by decide) (by decide) (by decide)
end Withdraw
